import Mathlib

/-!
Verification development for the SlotSwapper slot-swap transaction engine.

The definitions below are a shallow embedding of
`server/src/services/swap.service.ts` (the Swap State Machine) and of
`server/src/utils/safeSessionHandler.ts` (the transaction-support probe).

Modelling conventions:
- Mongo ObjectIds are `Nat`.
- A Mongo collection is an association list `List (Nat × α)`; `findId`
  models `Model.findById`, `setId` models `document.save()` (upsert of the
  document with that id), `removeId` models `Model.findByIdAndDelete`.
- Each service operation is a function `State → Except SwapError α × State`:
  a thrown `Error` becomes `Except.error` and, since in the source every
  `throw` happens before the first write of the operation, the error
  branches return the input state unchanged.
- `populate("targetUserId")` is modelled by a lookup in the set of existing
  user ids: when the referenced user record is gone, mongoose substitutes
  `null`, and the subsequent unguarded `._id` access in `acceptSwapRequest`
  raises a TypeError, modelled by `SwapError.typeError`.
-/

/-- Event (slot) status, from `EventStatus` in `server/src/types`. -/
inductive EventStatus where
  | BUSY
  | SWAPPABLE
  | SWAP_PENDING
deriving DecidableEq

/-- Swap request status, from `SwapRequestStatus` in `server/src/types`. -/
inductive SwapRequestStatus where
  | PENDING
  | ACCEPTED
  | REJECTED
deriving DecidableEq

/-- The `status.toLowerCase()` call used when building error messages. -/
def SwapRequestStatus.lower : SwapRequestStatus → String
  | .PENDING => "pending"
  | .ACCEPTED => "accepted"
  | .REJECTED => "rejected"

/-- A calendar slot: the fields of the `Event` document that the swap
service reads or writes (`userId`, `status`, `swapRequestId`), plus the
payload fields it never touches (`title`, `startTime`, `endTime`). -/
structure Slot where
  title : String
  startTime : Nat
  endTime : Nat
  userId : Nat
  status : EventStatus
  swapRequestId : Option Nat
deriving DecidableEq

/-- A swap request document, from the `SwapRequest` model. -/
structure SwapReq where
  requesterId : Nat
  requesterSlotId : Nat
  targetUserId : Nat
  targetSlotId : Nat
  status : SwapRequestStatus
deriving DecidableEq

/-- Errors thrown by the swap service. The constructor records the §7
taxonomy category of each `throw new Error(...)` site; the argument is the
message string of the source. `typeError` is not a domain error: it models
the JavaScript TypeError raised by an unguarded dereference. -/
inductive SwapError where
  | notFound (msg : String)
  | unauthorized (msg : String)
  | selfSwap (msg : String)
  | invalidState (msg : String)
  | typeError (msg : String)
deriving DecidableEq

/-- Whether an error belongs to the four-element domain taxonomy
(NotFound, Unauthorized, SelfSwap, InvalidState). -/
def SwapError.isDomainError : SwapError → Bool
  | .typeError _ => false
  | _ => true

/-- Lookup by id in a collection (`Model.findById`). -/
def findId {α : Type} : List (Nat × α) → Nat → Option α
  | [], _ => none
  | (k, v) :: rest, id => if k = id then some v else findId rest id

/-- Persist a document under its id (`document.save()`): replace the entry
with that id, or insert it if absent. -/
def setId {α : Type} : List (Nat × α) → Nat → α → List (Nat × α)
  | [], id, v => [(id, v)]
  | (k, w) :: rest, id, v =>
      if k = id then (id, v) :: rest else (k, w) :: setId rest id v

/-- Delete a document by id (`Model.findByIdAndDelete`). -/
def removeId {α : Type} : List (Nat × α) → Nat → List (Nat × α)
  | [], _ => []
  | (k, w) :: rest, id => if k = id then rest else (k, w) :: removeId rest id

/-- The persistent state: the Event collection, the SwapRequest collection
and the ids of existing User documents. -/
structure State where
  events : List (Nat × Slot)
  swapRequests : List (Nat × SwapReq)
  users : List Nat
deriving DecidableEq

/-- `SwapService.createSwapRequest` from `swap.service.ts`. `newId` is the
ObjectId that Mongo assigns to the inserted SwapRequest document. -/
def createSwapRequest (requesterId requesterSlotId targetSlotId newId : Nat)
    (s : State) : Except SwapError Nat × State :=
  match findId s.events requesterSlotId, findId s.events targetSlotId with
  | none, _ => (.error (.notFound "One or both slots not found"), s)
  | some _, none => (.error (.notFound "One or both slots not found"), s)
  | some requesterSlot, some targetSlot =>
    if requesterSlot.userId ≠ requesterId then
      (.error (.unauthorized "You do not own the offered slot"), s)
    else if requesterSlot.userId = targetSlot.userId then
      (.error (.selfSwap "Cannot swap with your own slot"), s)
    else if requesterSlot.status ≠ .SWAPPABLE then
      (.error (.invalidState "Your slot is not available for swapping"), s)
    else if targetSlot.status ≠ .SWAPPABLE then
      (.error (.invalidState "Target slot is no longer available for swapping"), s)
    else
      let req : SwapReq :=
        { requesterId := requesterId
          requesterSlotId := requesterSlotId
          targetUserId := targetSlot.userId
          targetSlotId := targetSlotId
          status := .PENDING }
      let events1 := setId s.events requesterSlotId
        { requesterSlot with status := .SWAP_PENDING, swapRequestId := some newId }
      let events2 := setId events1 targetSlotId
        { targetSlot with status := .SWAP_PENDING, swapRequestId := some newId }
      (.ok newId,
        { s with events := events2, swapRequests := setId s.swapRequests newId req })

/-- `SwapService.acceptSwapRequest` from `swap.service.ts`. The target
user is populated; when the user record no longer exists the populated
field is null and the `._id` access throws a TypeError. -/
def acceptSwapRequest (swapRequestId userId : Nat) (s : State) :
    Except SwapError Nat × State :=
  match findId s.swapRequests swapRequestId with
  | none => (.error (.notFound "Swap request not found"), s)
  | some swapRequest =>
    if swapRequest.targetUserId ∉ s.users then
      (.error (.typeError "Cannot read properties of null"), s)
    else if swapRequest.targetUserId ≠ userId then
      (.error (.unauthorized "Unauthorized: You are not the recipient of this swap request"), s)
    else if swapRequest.status ≠ .PENDING then
      (.error (.invalidState ("Swap request is already " ++ swapRequest.status.lower)), s)
    else
      match findId s.events swapRequest.requesterSlotId,
            findId s.events swapRequest.targetSlotId with
      | none, _ => (.error (.notFound "One or both slots no longer exist"), s)
      | some _, none => (.error (.notFound "One or both slots no longer exist"), s)
      | some requesterSlot, some targetSlot =>
        if requesterSlot.status ≠ .SWAP_PENDING then
          (.error (.invalidState "Requester slot is no longer locked for this swap"), s)
        else if targetSlot.status ≠ .SWAP_PENDING then
          (.error (.invalidState "Target slot is no longer locked for this swap"), s)
        else if requesterSlot.swapRequestId ≠ some swapRequestId then
          (.error (.invalidState "Requester slot locked for another swap"), s)
        else if targetSlot.swapRequestId ≠ some swapRequestId then
          (.error (.invalidState "Target slot locked for another swap"), s)
        else
          let events1 := setId s.events swapRequest.requesterSlotId
            { requesterSlot with
                userId := targetSlot.userId, status := .BUSY, swapRequestId := none }
          let events2 := setId events1 swapRequest.targetSlotId
            { targetSlot with
                userId := requesterSlot.userId, status := .BUSY, swapRequestId := none }
          (.ok swapRequestId,
            { s with
                events := events2
                swapRequests := setId s.swapRequests swapRequestId
                  { swapRequest with status := .ACCEPTED } })

/-- The conditional slot revert shared by reject and cancel: if the slot
was found and is still `SWAP_PENDING`, set it back to `SWAPPABLE` and
clear `swapRequestId`; otherwise leave the collection as it is. -/
def unlockSlot (events : List (Nat × Slot)) (found : Option Slot)
    (slotId : Nat) : List (Nat × Slot) :=
  match found with
  | some slot =>
      if slot.status = .SWAP_PENDING then
        setId events slotId { slot with status := .SWAPPABLE, swapRequestId := none }
      else events
  | none => events

/-- `SwapService.rejectSwapRequest` from `swap.service.ts`. -/
def rejectSwapRequest (swapRequestId userId : Nat) (s : State) :
    Except SwapError Nat × State :=
  match findId s.swapRequests swapRequestId with
  | none => (.error (.notFound "Swap request not found"), s)
  | some swapRequest =>
    if swapRequest.targetUserId ≠ userId then
      (.error (.unauthorized "Unauthorized: You are not the recipient"), s)
    else if swapRequest.status ≠ .PENDING then
      (.error (.invalidState ("Swap request is already " ++ swapRequest.status.lower)), s)
    else
      let events1 := unlockSlot s.events
        (findId s.events swapRequest.requesterSlotId) swapRequest.requesterSlotId
      let events2 := unlockSlot events1
        (findId s.events swapRequest.targetSlotId) swapRequest.targetSlotId
      (.ok swapRequestId,
        { s with
            events := events2
            swapRequests := setId s.swapRequests swapRequestId
              { swapRequest with status := .REJECTED } })

/-- `SwapService.cancelSwapRequest` from `swap.service.ts`. Both slots are
fetched before the request document is deleted; each is reverted only if
its status is still `SWAP_PENDING` (the source does not compare the slot
`swapRequestId` with the cancelled request). -/
def cancelSwapRequest (swapRequestId userId : Nat) (s : State) :
    Except SwapError String × State :=
  match findId s.swapRequests swapRequestId with
  | none => (.error (.notFound "Swap request not found"), s)
  | some swapRequest =>
    if swapRequest.requesterId ≠ userId then
      (.error (.unauthorized "Unauthorized: You did not create this request"), s)
    else if swapRequest.status ≠ .PENDING then
      (.error (.invalidState "Cannot cancel non-pending swap request"), s)
    else
      let events1 := unlockSlot s.events
        (findId s.events swapRequest.requesterSlotId) swapRequest.requesterSlotId
      let events2 := unlockSlot events1
        (findId s.events swapRequest.targetSlotId) swapRequest.targetSlotId
      (.ok "Swap request cancelled successfully",
        { s with
            events := events2
            swapRequests := removeId s.swapRequests swapRequestId })

/-- Environment of one `detectTransactionSupport` call, from
`safeSessionHandler.ts`: whether `mongoose.connection.db` became available
within the 3000 ms polling loop, and whether the `replSetGetStatus` admin
command then returned a (non-null) status document. -/
structure ProbeEnv where
  connReadyWithinWait : Bool
  replSetProbeOk : Bool
deriving DecidableEq

/-- Result of one `detectTransactionSupport` call: the returned boolean,
the new value of the module-level `transactionsSupported` cache, and
whether the admin-command probe was actually issued. -/
structure DetectOutcome where
  result : Bool
  cache : Option Bool
  probed : Bool
deriving DecidableEq

/-- `detectTransactionSupport` from `safeSessionHandler.ts`, with the
module-level `transactionsSupported : boolean | null` cache passed
explicitly. -/
def detectTransactionSupport (transactionsSupported : Option Bool)
    (env : ProbeEnv) : DetectOutcome :=
  match transactionsSupported with
  | some b => ⟨b, some b, false⟩
  | none =>
      if env.connReadyWithinWait = false then ⟨false, some false, false⟩
      else ⟨env.replSetProbeOk, some env.replSetProbeOk, true⟩

/-! ### Store lemmas -/

theorem findId_setId {α : Type} (l : List (Nat × α)) (k i : Nat) (v : α) :
    findId (setId l k v) i = if k = i then some v else findId l i := by
  induction l with
  | nil => by_cases h : k = i <;> simp [setId, findId, h]
  | cons hd tl ih =>
      obtain ⟨a, b⟩ := hd
      by_cases hak : a = k <;> by_cases hai : a = i <;> by_cases hki : k = i <;>
        simp_all [setId, findId]

theorem findId_eq_none {α : Type} {l : List (Nat × α)} {i : Nat}
    (h : i ∉ l.map Prod.fst) : findId l i = none := by
  induction l with
  | nil => rfl
  | cons hd tl ih =>
      obtain ⟨a, b⟩ := hd
      simp only [List.map_cons, List.mem_cons] at h
      push_neg at h
      have hai : ¬ a = i := fun hh => h.1 hh.symm
      simp [findId, hai, ih h.2]

theorem findId_mem {α : Type} {l : List (Nat × α)} {i : Nat} {v : α}
    (h : findId l i = some v) : i ∈ l.map Prod.fst := by
  induction l with
  | nil => simp [findId] at h
  | cons hd tl ih =>
      obtain ⟨a, b⟩ := hd
      by_cases hai : a = i
      · simp [hai]
      · simp only [findId, hai, if_false] at h
        simp [ih h]

theorem findId_removeId_ne {α : Type} (l : List (Nat × α)) {k i : Nat}
    (h : k ≠ i) : findId (removeId l k) i = findId l i := by
  induction l with
  | nil => rfl
  | cons hd tl ih =>
      obtain ⟨a, b⟩ := hd
      by_cases hak : a = k
      · subst hak; simp [removeId, findId, h]
      · simp [removeId, hak, findId, ih]

theorem findId_removeId_self {α : Type} {l : List (Nat × α)} {k : Nat}
    (h : (l.map Prod.fst).Nodup) : findId (removeId l k) k = none := by
  induction l with
  | nil => rfl
  | cons hd tl ih =>
      obtain ⟨a, b⟩ := hd
      simp only [List.map_cons, List.nodup_cons] at h
      by_cases hak : a = k
      · subst hak
        simp [removeId, findId_eq_none h.1]
      · simp [removeId, hak, findId, ih h.2]

/-! ### Success characterizations of the four operations -/

/-- Success of `createSwapRequest` pins down every precondition and the
exact post-state. -/
theorem createSwapRequest_ok {a rq tg nid : Nat} {s : State} {v : Nat} {s' : State}
    (h : createSwapRequest a rq tg nid s = (.ok v, s')) :
    ∃ rs ts, findId s.events rq = some rs ∧ findId s.events tg = some ts ∧
      rs.userId = a ∧ rs.userId ≠ ts.userId ∧
      rs.status = .SWAPPABLE ∧ ts.status = .SWAPPABLE ∧ v = nid ∧
      s' = { s with
        events := setId (setId s.events rq
            { rs with status := .SWAP_PENDING, swapRequestId := some nid }) tg
            { ts with status := .SWAP_PENDING, swapRequestId := some nid }
        swapRequests := setId s.swapRequests nid
          { requesterId := a, requesterSlotId := rq, targetUserId := ts.userId,
            targetSlotId := tg, status := .PENDING } } := by
  unfold createSwapRequest at h
  split at h
  · simp at h
  · simp at h
  · rename_i rs ts hrs hts
    split at h
    · simp at h
    split at h
    · simp at h
    split at h
    · simp at h
    split at h
    · simp at h
    rename_i hown hself hrstat htstat
    rw [not_ne_iff] at hown hrstat htstat
    injection h with h1 h2
    injection h1 with h1
    exact ⟨rs, ts, hrs, hts, hown, hself, hrstat, htstat, h1.symm, h2.symm⟩

/-- Success of `acceptSwapRequest` pins down every precondition and the
exact post-state. -/
theorem acceptSwapRequest_ok {rid uid : Nat} {s : State} {v : Nat} {s' : State}
    (h : acceptSwapRequest rid uid s = (.ok v, s')) :
    ∃ req rs ts, findId s.swapRequests rid = some req ∧
      req.targetUserId ∈ s.users ∧ req.targetUserId = uid ∧
      req.status = .PENDING ∧
      findId s.events req.requesterSlotId = some rs ∧
      findId s.events req.targetSlotId = some ts ∧
      rs.status = .SWAP_PENDING ∧ ts.status = .SWAP_PENDING ∧
      rs.swapRequestId = some rid ∧ ts.swapRequestId = some rid ∧
      v = rid ∧
      s' = { s with
        events := setId (setId s.events req.requesterSlotId
            { rs with userId := ts.userId, status := .BUSY, swapRequestId := none })
            req.targetSlotId
            { ts with userId := rs.userId, status := .BUSY, swapRequestId := none }
        swapRequests := setId s.swapRequests rid { req with status := .ACCEPTED } } := by
  unfold acceptSwapRequest at h
  split at h
  · simp at h
  rename_i req hreq
  split at h
  · simp at h
  split at h
  · simp at h
  split at h
  · simp at h
  rename_i husr hauth hpend
  split at h
  · simp at h
  · simp at h
  rename_i rs ts hrs hts
  split at h
  · simp at h
  split at h
  · simp at h
  split at h
  · simp at h
  split at h
  · simp at h
  rename_i hrstat htstat hrlock htlock
  rw [not_not] at husr
  rw [not_ne_iff] at hauth hpend hrstat htstat hrlock htlock
  injection h with h1 h2
  injection h1 with h1
  exact ⟨req, rs, ts, hreq, husr, hauth, hpend, hrs, hts, hrstat, htstat,
    hrlock, htlock, h1.symm, h2.symm⟩

/-- Success of `rejectSwapRequest` pins down every precondition and the
exact post-state. -/
theorem rejectSwapRequest_ok {rid uid : Nat} {s : State} {v : Nat} {s' : State}
    (h : rejectSwapRequest rid uid s = (.ok v, s')) :
    ∃ req, findId s.swapRequests rid = some req ∧
      req.targetUserId = uid ∧ req.status = .PENDING ∧ v = rid ∧
      s' = { s with
        events := unlockSlot
          (unlockSlot s.events (findId s.events req.requesterSlotId)
            req.requesterSlotId)
          (findId s.events req.targetSlotId) req.targetSlotId
        swapRequests := setId s.swapRequests rid { req with status := .REJECTED } } := by
  unfold rejectSwapRequest at h
  split at h
  · simp at h
  rename_i req hreq
  split at h
  · simp at h
  split at h
  · simp at h
  rename_i hauth hpend
  rw [not_ne_iff] at hauth hpend
  injection h with h1 h2
  injection h1 with h1
  exact ⟨req, hreq, hauth, hpend, h1.symm, h2.symm⟩

/-- Success of `cancelSwapRequest` pins down every precondition and the
exact post-state. -/
theorem cancelSwapRequest_ok {rid uid : Nat} {s : State} {v : String} {s' : State}
    (h : cancelSwapRequest rid uid s = (.ok v, s')) :
    ∃ req, findId s.swapRequests rid = some req ∧
      req.requesterId = uid ∧ req.status = .PENDING ∧
      v = "Swap request cancelled successfully" ∧
      s' = { s with
        events := unlockSlot
          (unlockSlot s.events (findId s.events req.requesterSlotId)
            req.requesterSlotId)
          (findId s.events req.targetSlotId) req.targetSlotId
        swapRequests := removeId s.swapRequests rid } := by
  unfold cancelSwapRequest at h
  split at h
  · simp at h
  rename_i req hreq
  split at h
  · simp at h
  split at h
  · simp at h
  rename_i hauth hpend
  rw [not_ne_iff] at hauth hpend
  injection h with h1 h2
  injection h1 with h1
  exact ⟨req, hreq, hauth, hpend, h1.symm, h2.symm⟩

/-! ### The slot-lock invariant -/

/-- The right-hand side of the lock invariant for one slot: its
`swapRequestId` is set and names a `PENDING` request whose requester slot
or target slot is this slot. -/
def lockTarget (reqs : List (Nat × SwapReq)) (id : Nat) (o : Option Nat) : Prop :=
  ∃ rid req, o = some rid ∧ findId reqs rid = some req ∧
    req.status = .PENDING ∧ (req.requesterSlotId = id ∨ req.targetSlotId = id)

theorem lockTarget_none (reqs : List (Nat × SwapReq)) (id : Nat) :
    ¬ lockTarget reqs id none := by
  rintro ⟨rid, req, h, -⟩
  exact Option.noConfusion h

/-- Boolean evaluator for `lockTarget`. -/
def lockTargetB (reqs : List (Nat × SwapReq)) (id : Nat) : Option Nat → Bool
  | none => false
  | some rid =>
    match findId reqs rid with
    | none => false
    | some req =>
        decide (req.status = .PENDING) &&
          (decide (req.requesterSlotId = id) || decide (req.targetSlotId = id))

theorem lockTargetB_iff (reqs : List (Nat × SwapReq)) (id : Nat) (o : Option Nat) :
    lockTargetB reqs id o = true ↔ lockTarget reqs id o := by
  cases o with
  | none => simp [lockTargetB, lockTarget_none]
  | some rid =>
      cases hf : findId reqs rid with
      | none =>
          simp only [lockTargetB, hf, lockTarget]
          constructor
          · intro h; cases h
          · rintro ⟨rid', req, ho, hfind, -⟩
            rw [Option.some.injEq] at ho
            subst ho
            rw [hf] at hfind
            cases hfind
      | some req =>
          simp only [lockTargetB, hf, lockTarget, Bool.and_eq_true, Bool.or_eq_true,
            decide_eq_true_eq]
          constructor
          · rintro ⟨h1, h2⟩; exact ⟨rid, req, rfl, hf, h1, h2⟩
          · rintro ⟨rid', req', ho, hfind, h1, h2⟩
            rw [Option.some.injEq] at ho
            subst ho
            rw [hf] at hfind
            rw [Option.some.injEq] at hfind
            subst hfind
            exact ⟨h1, h2⟩

/-- The per-slot invariant: `SWAP_PENDING` iff the slot is held by a
pending request that references it. -/
def slotLockConsistent (reqs : List (Nat × SwapReq)) (id : Nat) (slot : Slot) : Prop :=
  slot.status = .SWAP_PENDING ↔ lockTarget reqs id slot.swapRequestId

/-- The rest-state lock invariant of the data model. -/
def lockInvariant (s : State) : Prop :=
  ∀ id slot, findId s.events id = some slot →
    slotLockConsistent s.swapRequests id slot

/-- Executable check of `lockInvariant` over the finitely many stored
slots. -/
def lockInvariantCheck (s : State) : Bool :=
  s.events.all fun p =>
    match findId s.events p.1 with
    | some slot =>
        decide (slot.status = .SWAP_PENDING) == lockTargetB s.swapRequests p.1 slot.swapRequestId
    | none => true

theorem lockInvariant_of_check {s : State} (h : lockInvariantCheck s = true) :
    lockInvariant s := by
  intro id slot hfind
  obtain ⟨p, hp, hpid⟩ := List.mem_map.mp (findId_mem hfind)
  have hall := List.all_eq_true.mp h p hp
  rw [hpid, hfind] at hall
  simp only [beq_iff_eq] at hall
  unfold slotLockConsistent
  rw [← lockTargetB_iff, ← hall, decide_eq_true_eq]

/-! ### Lemmas about the conditional slot revert -/

theorem unlockSlot_not_pending {ev : List (Nat × Slot)} {f : Option Slot} {sid : Nat}
    (h : ∀ sl, f = some sl → sl.status ≠ .SWAP_PENDING) : unlockSlot ev f sid = ev := by
  cases f with
  | none => rfl
  | some sl => simp [unlockSlot, h sl rfl]

theorem findId_unlockSlot_ne {ev : List (Nat × Slot)} {f : Option Slot} {sid i : Nat}
    (h : sid ≠ i) : findId (unlockSlot ev f sid) i = findId ev i := by
  cases f with
  | none => rfl
  | some sl =>
      by_cases hp : sl.status = .SWAP_PENDING <;>
        simp [unlockSlot, hp, findId_setId, h]

theorem findId_unlockSlot_self {ev : List (Nat × Slot)} {sl : Slot} {sid : Nat}
    (hp : sl.status = .SWAP_PENDING) :
    findId (unlockSlot ev (some sl) sid) sid =
      some { sl with status := .SWAPPABLE, swapRequestId := none } := by
  simp [unlockSlot, hp, findId_setId]

/-! ### Preservation of the lock invariant -/

theorem createSwapRequest_preserves_lockInvariant
    {a rq tg nid v : Nat} {s s' : State}
    (h : createSwapRequest a rq tg nid s = (.ok v, s'))
    (hfresh : findId s.swapRequests nid = none)
    (hinv : lockInvariant s) : lockInvariant s' := by
  obtain ⟨rs, ts, hrs, hts, hown, hself, hrstat, htstat, hv, hs'⟩ :=
    createSwapRequest_ok h
  have hne : rq ≠ tg := by
    rintro rfl
    rw [hrs, Option.some.injEq] at hts
    exact hself (by rw [hts])
  subst hs'
  intro id slot hfind
  simp only [findId_setId] at hfind
  unfold slotLockConsistent
  by_cases htg : tg = id
  · rw [if_pos htg] at hfind
    rw [Option.some.injEq] at hfind
    subst hfind
    refine iff_of_true rfl ⟨nid,
      { requesterId := a, requesterSlotId := rq, targetUserId := ts.userId,
        targetSlotId := tg, status := .PENDING }, rfl, ?_, rfl, Or.inr htg⟩
    rw [findId_setId, if_pos rfl]
  · rw [if_neg htg] at hfind
    by_cases hrq : rq = id
    · rw [if_pos hrq] at hfind
      rw [Option.some.injEq] at hfind
      subst hfind
      refine iff_of_true rfl ⟨nid,
        { requesterId := a, requesterSlotId := rq, targetUserId := ts.userId,
          targetSlotId := tg, status := .PENDING }, rfl, ?_, rfl, Or.inl hrq⟩
      rw [findId_setId, if_pos rfl]
    · rw [if_neg hrq] at hfind
      have hpre := hinv id slot hfind
      unfold slotLockConsistent at hpre
      rw [hpre]
      constructor
      · rintro ⟨r, req', ho, hf, hpend, hcont⟩
        refine ⟨r, req', ho, ?_, hpend, hcont⟩
        rw [findId_setId]
        have hnr : nid ≠ r := by
          rintro rfl
          rw [hfresh] at hf
          cases hf
        rw [if_neg hnr]
        exact hf
      · rintro ⟨r, req', ho, hf, hpend, hcont⟩
        rw [findId_setId] at hf
        by_cases hnr : nid = r
        · rw [if_pos hnr] at hf
          rw [Option.some.injEq] at hf
          subst hf
          rcases hcont with hc | hc
          · exact absurd hc hrq
          · exact absurd hc htg
        · rw [if_neg hnr] at hf
          exact ⟨r, req', ho, hf, hpend, hcont⟩

theorem acceptSwapRequest_preserves_lockInvariant
    {rid uid v : Nat} {s s' : State}
    (h : acceptSwapRequest rid uid s = (.ok v, s'))
    (hinv : lockInvariant s) : lockInvariant s' := by
  obtain ⟨req, rs, ts, hreq, husr, hauth, hpend, hrs, hts, hrstat, htstat,
    hrlock, htlock, hv, hs'⟩ := acceptSwapRequest_ok h
  subst hs'
  intro id slot hfind
  simp only [findId_setId] at hfind
  unfold slotLockConsistent
  by_cases htg : req.targetSlotId = id
  · rw [if_pos htg] at hfind
    rw [Option.some.injEq] at hfind
    subst hfind
    exact iff_of_false (by simp) (lockTarget_none _ _)
  · rw [if_neg htg] at hfind
    by_cases hrq : req.requesterSlotId = id
    · rw [if_pos hrq] at hfind
      rw [Option.some.injEq] at hfind
      subst hfind
      exact iff_of_false (by simp) (lockTarget_none _ _)
    · rw [if_neg hrq] at hfind
      have hpre := hinv id slot hfind
      unfold slotLockConsistent at hpre
      rw [hpre]
      constructor
      · rintro ⟨r, req', ho, hf, hpend', hcont⟩
        by_cases hr : rid = r
        · subst hr
          rw [hreq, Option.some.injEq] at hf
          subst hf
          rcases hcont with hc | hc
          · exact absurd hc hrq
          · exact absurd hc htg
        · refine ⟨r, req', ho, ?_, hpend', hcont⟩
          rw [findId_setId, if_neg hr]
          exact hf
      · rintro ⟨r, req', ho, hf, hpend', hcont⟩
        rw [findId_setId] at hf
        by_cases hr : rid = r
        · rw [if_pos hr] at hf
          rw [Option.some.injEq] at hf
          subst hf
          cases hpend'
        · rw [if_neg hr] at hf
          exact ⟨r, req', ho, hf, hpend', hcont⟩

theorem rejectSwapRequest_preserves_lockInvariant
    {rid uid v : Nat} {s s' : State}
    (h : rejectSwapRequest rid uid s = (.ok v, s'))
    (hinv : lockInvariant s) : lockInvariant s' := by
  obtain ⟨req, hreq, hauth, hpend, hv, hs'⟩ := rejectSwapRequest_ok h
  subst hs'
  have hback : ∀ i o,
      lockTarget (setId s.swapRequests rid { req with status := .REJECTED }) i o →
        lockTarget s.swapRequests i o := by
    rintro i o ⟨r, req', ho, hf, hpend', hcont'⟩
    rw [findId_setId] at hf
    by_cases hr : rid = r
    · rw [if_pos hr, Option.some.injEq] at hf
      subst hf
      cases hpend'
    · rw [if_neg hr] at hf
      exact ⟨r, req', ho, hf, hpend', hcont'⟩
  have hfwd : ∀ i o, req.requesterSlotId ≠ i → req.targetSlotId ≠ i →
      lockTarget s.swapRequests i o →
        lockTarget (setId s.swapRequests rid { req with status := .REJECTED }) i o := by
    rintro i o hR hT ⟨r, req', ho, hf, hpend', hcont'⟩
    by_cases hr : rid = r
    · subst hr
      rw [hreq, Option.some.injEq] at hf
      subst hf
      rcases hcont' with hc | hc
      · exact absurd hc hR
      · exact absurd hc hT
    · refine ⟨r, req', ho, ?_, hpend', hcont'⟩
      rw [findId_setId, if_neg hr]
      exact hf
  intro id slot hfind
  unfold slotLockConsistent
  by_cases hT : req.targetSlotId = id
  · subst hT
    by_cases hq : ∃ tsl, findId s.events req.targetSlotId = some tsl ∧
        tsl.status = .SWAP_PENDING
    · obtain ⟨tsl, hf, hp⟩ := hq
      rw [hf, findId_unlockSlot_self hp, Option.some.injEq] at hfind
      subst hfind
      exact iff_of_false (by simp) (lockTarget_none _ _)
    · push_neg at hq
      rw [unlockSlot_not_pending hq] at hfind
      have hfind2 : findId s.events req.targetSlotId = some slot := by
        by_cases hRT : req.requesterSlotId = req.targetSlotId
        · rw [hRT, unlockSlot_not_pending hq] at hfind
          exact hfind
        · rw [findId_unlockSlot_ne hRT] at hfind
          exact hfind
      have hstat := hq slot hfind2
      have hpre := hinv _ slot hfind2
      unfold slotLockConsistent at hpre
      refine iff_of_false hstat ?_
      intro hpost
      exact hstat (hpre.mpr (hback _ _ hpost))
  · by_cases hR : req.requesterSlotId = id
    · subst hR
      rw [findId_unlockSlot_ne hT] at hfind
      by_cases hq : ∃ rsl, findId s.events req.requesterSlotId = some rsl ∧
          rsl.status = .SWAP_PENDING
      · obtain ⟨rsl, hf, hp⟩ := hq
        rw [hf, findId_unlockSlot_self hp, Option.some.injEq] at hfind
        subst hfind
        exact iff_of_false (by simp) (lockTarget_none _ _)
      · push_neg at hq
        rw [unlockSlot_not_pending hq] at hfind
        have hstat := hq slot hfind
        have hpre := hinv _ slot hfind
        unfold slotLockConsistent at hpre
        refine iff_of_false hstat ?_
        intro hpost
        exact hstat (hpre.mpr (hback _ _ hpost))
    · rw [findId_unlockSlot_ne hT, findId_unlockSlot_ne hR] at hfind
      have hpre := hinv id slot hfind
      unfold slotLockConsistent at hpre
      rw [hpre]
      exact ⟨hfwd id _ hR hT, hback id _⟩

theorem cancelSwapRequest_preserves_lockInvariant
    {rid uid : Nat} {v : String} {s s' : State}
    (h : cancelSwapRequest rid uid s = (.ok v, s'))
    (hnd : (s.swapRequests.map Prod.fst).Nodup)
    (hinv : lockInvariant s) : lockInvariant s' := by
  obtain ⟨req, hreq, hauth, hpend, hv, hs'⟩ := cancelSwapRequest_ok h
  subst hs'
  have hback : ∀ i o,
      lockTarget (removeId s.swapRequests rid) i o →
        lockTarget s.swapRequests i o := by
    rintro i o ⟨r, req', ho, hf, hpend', hcont'⟩
    by_cases hr : rid = r
    · subst hr
      rw [findId_removeId_self hnd] at hf
      cases hf
    · rw [findId_removeId_ne _ hr] at hf
      exact ⟨r, req', ho, hf, hpend', hcont'⟩
  have hfwd : ∀ i o, req.requesterSlotId ≠ i → req.targetSlotId ≠ i →
      lockTarget s.swapRequests i o →
        lockTarget (removeId s.swapRequests rid) i o := by
    rintro i o hR hT ⟨r, req', ho, hf, hpend', hcont'⟩
    by_cases hr : rid = r
    · subst hr
      rw [hreq, Option.some.injEq] at hf
      subst hf
      rcases hcont' with hc | hc
      · exact absurd hc hR
      · exact absurd hc hT
    · refine ⟨r, req', ho, ?_, hpend', hcont'⟩
      rw [findId_removeId_ne _ hr]
      exact hf
  intro id slot hfind
  unfold slotLockConsistent
  by_cases hT : req.targetSlotId = id
  · subst hT
    by_cases hq : ∃ tsl, findId s.events req.targetSlotId = some tsl ∧
        tsl.status = .SWAP_PENDING
    · obtain ⟨tsl, hf, hp⟩ := hq
      rw [hf, findId_unlockSlot_self hp, Option.some.injEq] at hfind
      subst hfind
      exact iff_of_false (by simp) (lockTarget_none _ _)
    · push_neg at hq
      rw [unlockSlot_not_pending hq] at hfind
      have hfind2 : findId s.events req.targetSlotId = some slot := by
        by_cases hRT : req.requesterSlotId = req.targetSlotId
        · rw [hRT, unlockSlot_not_pending hq] at hfind
          exact hfind
        · rw [findId_unlockSlot_ne hRT] at hfind
          exact hfind
      have hstat := hq slot hfind2
      have hpre := hinv _ slot hfind2
      unfold slotLockConsistent at hpre
      refine iff_of_false hstat ?_
      intro hpost
      exact hstat (hpre.mpr (hback _ _ hpost))
  · by_cases hR : req.requesterSlotId = id
    · subst hR
      rw [findId_unlockSlot_ne hT] at hfind
      by_cases hq : ∃ rsl, findId s.events req.requesterSlotId = some rsl ∧
          rsl.status = .SWAP_PENDING
      · obtain ⟨rsl, hf, hp⟩ := hq
        rw [hf, findId_unlockSlot_self hp, Option.some.injEq] at hfind
        subst hfind
        exact iff_of_false (by simp) (lockTarget_none _ _)
      · push_neg at hq
        rw [unlockSlot_not_pending hq] at hfind
        have hstat := hq slot hfind
        have hpre := hinv _ slot hfind
        unfold slotLockConsistent at hpre
        refine iff_of_false hstat ?_
        intro hpost
        exact hstat (hpre.mpr (hback _ _ hpost))
    · rw [findId_unlockSlot_ne hT, findId_unlockSlot_ne hR] at hfind
      have hpre := hinv id slot hfind
      unfold slotLockConsistent at hpre
      rw [hpre]
      exact ⟨hfwd id _ hR hT, hback id _⟩

/-! ### Success and failure introduction lemmas -/

theorem createSwapRequest_ok_intro {a rq tg nid : Nat} {s : State} {rs ts : Slot}
    (hrs : findId s.events rq = some rs) (hts : findId s.events tg = some ts)
    (hown : rs.userId = a) (hself : rs.userId ≠ ts.userId)
    (hst1 : rs.status = .SWAPPABLE) (hst2 : ts.status = .SWAPPABLE) :
    createSwapRequest a rq tg nid s = (.ok nid,
      { s with
          events := setId (setId s.events rq
              { rs with status := .SWAP_PENDING, swapRequestId := some nid }) tg
              { ts with status := .SWAP_PENDING, swapRequestId := some nid }
          swapRequests := setId s.swapRequests nid
            { requesterId := a, requesterSlotId := rq, targetUserId := ts.userId,
              targetSlotId := tg, status := .PENDING } }) := by
  unfold createSwapRequest
  rw [hrs, hts]
  dsimp only
  rw [if_neg (by simp [hown]), if_neg hself, if_neg (by simp [hst1]),
    if_neg (by simp [hst2])]

theorem rejectSwapRequest_ok_intro {rid uid : Nat} {s : State} {req : SwapReq}
    (hreq : findId s.swapRequests rid = some req)
    (hauth : req.targetUserId = uid) (hpend : req.status = .PENDING) :
    rejectSwapRequest rid uid s = (.ok rid,
      { s with
          events := unlockSlot
            (unlockSlot s.events (findId s.events req.requesterSlotId)
              req.requesterSlotId)
            (findId s.events req.targetSlotId) req.targetSlotId
          swapRequests := setId s.swapRequests rid
            { req with status := .REJECTED } }) := by
  unfold rejectSwapRequest
  rw [hreq]
  dsimp only
  rw [if_neg (by simp [hauth]), if_neg (by simp [hpend])]

theorem cancelSwapRequest_notFound_intro {rid uid : Nat} {s : State}
    (h : findId s.swapRequests rid = none) :
    cancelSwapRequest rid uid s = (.error (.notFound "Swap request not found"), s) := by
  unfold cancelSwapRequest
  rw [h]

/-! ### Concrete scenario states -/

/-- Slot S1, owned by user 1, offered for swapping. -/
def slotA : Slot :=
  { title := "S1", startTime := 0, endTime := 1, userId := 1,
    status := .SWAPPABLE, swapRequestId := none }

/-- Slot S2, owned by user 2, offered for swapping. -/
def slotB : Slot :=
  { title := "S2", startTime := 2, endTime := 3, userId := 2,
    status := .SWAPPABLE, swapRequestId := none }

/-- Two users, two offerable slots, no requests. -/
def baseState : State :=
  { events := [(10, slotA), (11, slotB)], swapRequests := [], users := [1, 2] }

/-- The state after user 1 requests to swap slot 10 for slot 11. -/
def pendState : State := (createSwapRequest 1 10 11 5 baseState).2

/-! ### C1 -/

/-- C1: for every successful `acceptSwapRequest(requestId, userId)` call,
the post-state has the two referenced slots with their owner fields
exchanged, both with status `Occupied` (BUSY) and cleared `lockRef`
(`swapRequestId`), and the request status set to `Accepted`. -/
theorem acceptSwapRequest_success_postconditions
    {rid uid v : Nat} {s s' : State}
    (h : acceptSwapRequest rid uid s = (.ok v, s')) :
    ∃ req rs ts, findId s.swapRequests rid = some req ∧
      findId s.events req.requesterSlotId = some rs ∧
      findId s.events req.targetSlotId = some ts ∧
      findId s'.events req.requesterSlotId =
        some { rs with userId := ts.userId, status := .BUSY, swapRequestId := none } ∧
      findId s'.events req.targetSlotId =
        some { ts with userId := rs.userId, status := .BUSY, swapRequestId := none } ∧
      findId s'.swapRequests rid = some { req with status := .ACCEPTED } := by
  obtain ⟨req, rs, ts, hreq, -, -, -, hrs, hts, -, -, -, -, -, hs'⟩ :=
    acceptSwapRequest_ok h
  subst hs'
  refine ⟨req, rs, ts, hreq, hrs, hts, ?_, ?_, ?_⟩
  · rw [findId_setId]
    by_cases hRT : req.targetSlotId = req.requesterSlotId
    · rw [if_pos hRT]
      rw [hRT] at hts
      rw [hrs, Option.some.injEq] at hts
      rw [hts]
    · rw [if_neg hRT, findId_setId, if_pos rfl]
  · rw [findId_setId, if_pos rfl]
  · rw [findId_setId, if_pos rfl]

theorem acceptSwapRequest_success_postconditions_witness :
    ∃ req rs ts, findId pendState.swapRequests 5 = some req ∧
      findId pendState.events req.requesterSlotId = some rs ∧
      findId pendState.events req.targetSlotId = some ts ∧
      findId ((acceptSwapRequest 5 2 pendState).2).events req.requesterSlotId =
        some { rs with userId := ts.userId, status := .BUSY, swapRequestId := none } ∧
      findId ((acceptSwapRequest 5 2 pendState).2).events req.targetSlotId =
        some { ts with userId := rs.userId, status := .BUSY, swapRequestId := none } ∧
      findId ((acceptSwapRequest 5 2 pendState).2).swapRequests 5 =
        some { req with status := .ACCEPTED } :=
  @acceptSwapRequest_success_postconditions 5 2 5 pendState
    (acceptSwapRequest 5 2 pendState).2 (by rfl)

/-! ### C2 -/

/-- C2: after every operation completes, a slot is `Locked`
(`SWAP_PENDING`) iff its `lockRef` (`swapRequestId`) is set and references
a `PENDING` request whose requester slot or target slot is this slot; each
of create, accept, reject and cancel preserves this invariant (create with
a fresh request id, cancel under uniqueness of stored request ids). -/
theorem swapOperations_preserve_lockInvariant :
    (∀ a rq tg nid v s s', createSwapRequest a rq tg nid s = (.ok v, s') →
        findId s.swapRequests nid = none → lockInvariant s → lockInvariant s') ∧
    (∀ rid uid v s s', acceptSwapRequest rid uid s = (.ok v, s') →
        lockInvariant s → lockInvariant s') ∧
    (∀ rid uid v s s', rejectSwapRequest rid uid s = (.ok v, s') →
        lockInvariant s → lockInvariant s') ∧
    (∀ rid uid v s s', cancelSwapRequest rid uid s = (.ok v, s') →
        (s.swapRequests.map Prod.fst).Nodup → lockInvariant s → lockInvariant s') :=
  ⟨fun _ _ _ _ _ _ _ h hf hi => createSwapRequest_preserves_lockInvariant h hf hi,
   fun _ _ _ _ _ h hi => acceptSwapRequest_preserves_lockInvariant h hi,
   fun _ _ _ _ _ h hi => rejectSwapRequest_preserves_lockInvariant h hi,
   fun _ _ _ _ _ h hn hi => cancelSwapRequest_preserves_lockInvariant h hn hi⟩

theorem swapOperations_preserve_lockInvariant_witness :
    lockInvariant (createSwapRequest 1 10 11 5 baseState).2 :=
  swapOperations_preserve_lockInvariant.1 1 10 11 5 5 baseState
    (createSwapRequest 1 10 11 5 baseState).2 rfl rfl
    (lockInvariant_of_check (by decide))

/-! ### C3 -/

/-- C3: `createSwapRequest` fails with NotFound when either slot is
missing, Unauthorized when the requester does not own the offered slot,
SelfSwap when the two slots share an owner (in particular when the two
slot ids coincide), InvalidState when either slot is not `SWAPPABLE`
(e.g. a target slot already locked); when all preconditions hold it
inserts a `PENDING` request and locks both slots with
`swapRequestId` = new request id. The checks are applied in source order. -/
theorem createSwapRequest_validation (a rq tg nid : Nat) (s : State) :
    ((findId s.events rq = none ∨ findId s.events tg = none) →
      createSwapRequest a rq tg nid s =
        (.error (.notFound "One or both slots not found"), s)) ∧
    (∀ rs ts, findId s.events rq = some rs → findId s.events tg = some ts →
      rs.userId ≠ a →
      createSwapRequest a rq tg nid s =
        (.error (.unauthorized "You do not own the offered slot"), s)) ∧
    (∀ rs ts, findId s.events rq = some rs → findId s.events tg = some ts →
      rs.userId = a → rs.userId = ts.userId →
      createSwapRequest a rq tg nid s =
        (.error (.selfSwap "Cannot swap with your own slot"), s)) ∧
    (∀ rs, rq = tg → findId s.events rq = some rs → rs.userId = a →
      createSwapRequest a rq tg nid s =
        (.error (.selfSwap "Cannot swap with your own slot"), s)) ∧
    (∀ rs ts, findId s.events rq = some rs → findId s.events tg = some ts →
      rs.userId = a → rs.userId ≠ ts.userId → rs.status ≠ .SWAPPABLE →
      createSwapRequest a rq tg nid s =
        (.error (.invalidState "Your slot is not available for swapping"), s)) ∧
    (∀ rs ts, findId s.events rq = some rs → findId s.events tg = some ts →
      rs.userId = a → rs.userId ≠ ts.userId → rs.status = .SWAPPABLE →
      ts.status ≠ .SWAPPABLE →
      createSwapRequest a rq tg nid s =
        (.error (.invalidState "Target slot is no longer available for swapping"), s)) ∧
    (∀ rs ts, findId s.events rq = some rs → findId s.events tg = some ts →
      rs.userId = a → rs.userId ≠ ts.userId →
      rs.status = .SWAPPABLE → ts.status = .SWAPPABLE →
      createSwapRequest a rq tg nid s = (.ok nid,
        { s with
            events := setId (setId s.events rq
                { rs with status := .SWAP_PENDING, swapRequestId := some nid }) tg
                { ts with status := .SWAP_PENDING, swapRequestId := some nid }
            swapRequests := setId s.swapRequests nid
              { requesterId := a, requesterSlotId := rq, targetUserId := ts.userId,
                targetSlotId := tg, status := .PENDING } })) := by
  refine ⟨?_, ?_, ?_, ?_, ?_, ?_, ?_⟩
  · rintro (hno | hno)
    · unfold createSwapRequest
      rw [hno]
    · cases hrq : findId s.events rq with
      | none =>
          unfold createSwapRequest
          rw [hrq]
      | some rs =>
          unfold createSwapRequest
          rw [hrq, hno]
  · intro rs ts hrs hts hna
    unfold createSwapRequest
    rw [hrs, hts]
    dsimp only
    rw [if_pos hna]
  · intro rs ts hrs hts hown hsame
    unfold createSwapRequest
    rw [hrs, hts]
    dsimp only
    rw [if_neg (by simp [hown]), if_pos hsame]
  · intro rs hrqtg hrs hown
    have hts : findId s.events tg = some rs := by rw [← hrqtg]; exact hrs
    unfold createSwapRequest
    rw [hrs, hts]
    dsimp only
    rw [if_neg (by simp [hown]), if_pos rfl]
  · intro rs ts hrs hts hown hdiff hstat
    unfold createSwapRequest
    rw [hrs, hts]
    dsimp only
    rw [if_neg (by simp [hown]), if_neg hdiff, if_pos hstat]
  · intro rs ts hrs hts hown hdiff hstat1 hstat2
    unfold createSwapRequest
    rw [hrs, hts]
    dsimp only
    rw [if_neg (by simp [hown]), if_neg hdiff, if_neg (by simp [hstat1]),
      if_pos hstat2]
  · intro rs ts hrs hts hown hdiff hstat1 hstat2
    exact createSwapRequest_ok_intro hrs hts hown hdiff hstat1 hstat2

theorem createSwapRequest_validation_witness :
    createSwapRequest 1 10 11 5 baseState = (.ok 5,
      { baseState with
          events := setId (setId baseState.events 10
              { slotA with status := .SWAP_PENDING, swapRequestId := some 5 }) 11
              { slotB with status := .SWAP_PENDING, swapRequestId := some 5 }
          swapRequests := setId baseState.swapRequests 5
            { requesterId := 1, requesterSlotId := 10, targetUserId := slotB.userId,
              targetSlotId := 11, status := .PENDING } }) ∧
    createSwapRequest 1 99 11 5 baseState =
      (.error (.notFound "One or both slots not found"), baseState) :=
  ⟨(createSwapRequest_validation 1 10 11 5 baseState).2.2.2.2.2.2 slotA slotB
      rfl rfl rfl (by decide) rfl rfl,
   (createSwapRequest_validation 1 99 11 5 baseState).1 (Or.inl rfl)⟩

/-! ### C4 -/

/-- C4: whenever `createSwapRequest` returns a domain error, no write to
the Event store or the SwapRequest store has happened: the post-state is
the pre-state (all validations run before the first write). -/
theorem createSwapRequest_error_preserves_state
    (a rq tg nid : Nat) (s : State) (e : SwapError) (s' : State)
    (h : createSwapRequest a rq tg nid s = (.error e, s')) : s' = s := by
  unfold createSwapRequest at h
  split at h
  · injection h with h1 h2
    exact h2.symm
  · injection h with h1 h2
    exact h2.symm
  · split at h
    · injection h with h1 h2
      exact h2.symm
    split at h
    · injection h with h1 h2
      exact h2.symm
    split at h
    · injection h with h1 h2
      exact h2.symm
    split at h
    · injection h with h1 h2
      exact h2.symm
    · simp at h

theorem createSwapRequest_error_preserves_state_witness :
    (createSwapRequest 3 10 11 5 baseState).2 = baseState :=
  createSwapRequest_error_preserves_state 3 10 11 5 baseState
    (.unauthorized "You do not own the offered slot")
    (createSwapRequest 3 10 11 5 baseState).2 (by rfl)

/-! ### C5 -/

/-- Slot 10, owned by user 1, locked but with `swapRequestId` naming
request 99 rather than request 5. -/
def foreignLockedSlot : Slot :=
  { title := "S1", startTime := 0, endTime := 1, userId := 1,
    status := .SWAP_PENDING, swapRequestId := some 99 }

/-- Slot 11, owned by user 2, locked for request 5. -/
def ownLockedSlot : Slot :=
  { title := "S2", startTime := 2, endTime := 3, userId := 2,
    status := .SWAP_PENDING, swapRequestId := some 5 }

/-- A state in which pending request 5 references slot 10, but slot 10 is
locked with a `swapRequestId` naming a different request (99). -/
def crossState : State :=
  { events := [(10, foreignLockedSlot), (11, ownLockedSlot)],
    swapRequests := [(5,
      { requesterId := 1, requesterSlotId := 10, targetUserId := 2,
        targetSlotId := 11, status := .PENDING })],
    users := [1, 2] }

/-- C5 counterexample: cancelling request 5 succeeds and reverts slot 10
to `SWAPPABLE` with `swapRequestId` cleared, even though slot 10 was
locked with `swapRequestId` = 99 ≠ 5. The source checks only
`status === SWAP_PENDING` before reverting, not the lock reference, so a
slot locked for a different request is not left unchanged. -/
theorem cancelSwapRequest_foreign_lock_reverted :
    findId crossState.events 10 = some foreignLockedSlot ∧
    foreignLockedSlot.status = .SWAP_PENDING ∧
    foreignLockedSlot.swapRequestId = some 99 ∧
    (cancelSwapRequest 5 1 crossState).1 =
      .ok "Swap request cancelled successfully" ∧
    findId ((cancelSwapRequest 5 1 crossState).2).events 10 =
      some { foreignLockedSlot with status := .SWAPPABLE, swapRequestId := none } ∧
    findId ((cancelSwapRequest 5 1 crossState).2).events 10 ≠
      some foreignLockedSlot :=
  ⟨rfl, rfl, rfl, rfl, rfl, by decide⟩

/-- C5 amended: for every successful `cancelSwapRequest`, each referenced
slot is reverted to `SWAPPABLE` with `swapRequestId` cleared whenever its
status is still `SWAP_PENDING` — regardless of which request its
`swapRequestId` names — each referenced slot whose status is not
`SWAP_PENDING` is unchanged, and every non-referenced slot is unchanged. -/
theorem cancelSwapRequest_slot_revert_characterization
    {rid uid : Nat} {v : String} {s s' : State}
    (h : cancelSwapRequest rid uid s = (.ok v, s')) :
    ∃ req, findId s.swapRequests rid = some req ∧
      (∀ i slot, findId s.events i = some slot →
        i ≠ req.requesterSlotId → i ≠ req.targetSlotId →
        findId s'.events i = some slot) ∧
      (∀ slot, findId s.events req.requesterSlotId = some slot →
        slot.status = .SWAP_PENDING →
        findId s'.events req.requesterSlotId =
          some { slot with status := .SWAPPABLE, swapRequestId := none }) ∧
      (∀ slot, findId s.events req.requesterSlotId = some slot →
        slot.status ≠ .SWAP_PENDING →
        findId s'.events req.requesterSlotId = some slot) ∧
      (∀ slot, findId s.events req.targetSlotId = some slot →
        slot.status = .SWAP_PENDING →
        findId s'.events req.targetSlotId =
          some { slot with status := .SWAPPABLE, swapRequestId := none }) ∧
      (∀ slot, findId s.events req.targetSlotId = some slot →
        slot.status ≠ .SWAP_PENDING →
        findId s'.events req.targetSlotId = some slot) := by
  obtain ⟨req, hreq, hauth, hpend, hv, hs'⟩ := cancelSwapRequest_ok h
  subst hs'
  refine ⟨req, hreq, ?_, ?_, ?_, ?_, ?_⟩
  · intro i slot hf hR hT
    rw [findId_unlockSlot_ne (fun hh => hT hh.symm),
      findId_unlockSlot_ne (fun hh => hR hh.symm)]
    exact hf
  · intro slot hf hp
    by_cases hRT : req.targetSlotId = req.requesterSlotId
    · rw [hRT, hf, findId_unlockSlot_self hp]
    · rw [findId_unlockSlot_ne hRT, hf, findId_unlockSlot_self hp]
  · intro slot hf hnp
    have hq : ∀ sl, findId s.events req.requesterSlotId = some sl →
        sl.status ≠ .SWAP_PENDING := by
      intro sl hsl
      rw [hf, Option.some.injEq] at hsl
      subst hsl
      exact hnp
    by_cases hRT : req.targetSlotId = req.requesterSlotId
    · rw [hRT, unlockSlot_not_pending hq, unlockSlot_not_pending hq]
      exact hf
    · rw [findId_unlockSlot_ne hRT, unlockSlot_not_pending hq]
      exact hf
  · intro slot hf hp
    rw [hf, findId_unlockSlot_self hp]
  · intro slot hf hnp
    have hq : ∀ sl, findId s.events req.targetSlotId = some sl →
        sl.status ≠ .SWAP_PENDING := by
      intro sl hsl
      rw [hf, Option.some.injEq] at hsl
      subst hsl
      exact hnp
    rw [unlockSlot_not_pending hq]
    by_cases hRT : req.requesterSlotId = req.targetSlotId
    · rw [hRT, unlockSlot_not_pending hq]
      exact hf
    · rw [findId_unlockSlot_ne hRT]
      exact hf

theorem cancelSwapRequest_slot_revert_characterization_witness :
    ∃ req, findId crossState.swapRequests 5 = some req ∧
      (∀ i slot, findId crossState.events i = some slot →
        i ≠ req.requesterSlotId → i ≠ req.targetSlotId →
        findId ((cancelSwapRequest 5 1 crossState).2).events i = some slot) ∧
      (∀ slot, findId crossState.events req.requesterSlotId = some slot →
        slot.status = .SWAP_PENDING →
        findId ((cancelSwapRequest 5 1 crossState).2).events req.requesterSlotId =
          some { slot with status := .SWAPPABLE, swapRequestId := none }) ∧
      (∀ slot, findId crossState.events req.requesterSlotId = some slot →
        slot.status ≠ .SWAP_PENDING →
        findId ((cancelSwapRequest 5 1 crossState).2).events req.requesterSlotId =
          some slot) ∧
      (∀ slot, findId crossState.events req.targetSlotId = some slot →
        slot.status = .SWAP_PENDING →
        findId ((cancelSwapRequest 5 1 crossState).2).events req.targetSlotId =
          some { slot with status := .SWAPPABLE, swapRequestId := none }) ∧
      (∀ slot, findId crossState.events req.targetSlotId = some slot →
        slot.status ≠ .SWAP_PENDING →
        findId ((cancelSwapRequest 5 1 crossState).2).events req.targetSlotId =
          some slot) :=
  @cancelSwapRequest_slot_revert_characterization 5 1
    "Swap request cancelled successfully" crossState
    (cancelSwapRequest 5 1 crossState).2 (by rfl)

/-! ### C6 -/

/-- C6: for two existing slots with distinct ids and distinct owners,
both `SWAPPABLE` with no lock reference, `createSwapRequest` by the first
owner followed by `rejectSwapRequest` by the second owner (no interleaved
operation) returns both slots to exactly their pre-request records:
status `SWAPPABLE`, `swapRequestId` unset, owner unchanged. -/
theorem createRequest_then_reject_roundtrip
    {s : State} {i1 i2 nid : Nat} {sl1 sl2 : Slot}
    (h1 : findId s.events i1 = some sl1) (h2 : findId s.events i2 = some sl2)
    (hne : i1 ≠ i2)
    (hst1 : sl1.status = .SWAPPABLE) (hst2 : sl2.status = .SWAPPABLE)
    (hlk1 : sl1.swapRequestId = none) (hlk2 : sl2.swapRequestId = none)
    (hown : sl1.userId ≠ sl2.userId) :
    ∃ s1 s2, createSwapRequest sl1.userId i1 i2 nid s = (.ok nid, s1) ∧
      rejectSwapRequest nid sl2.userId s1 = (.ok nid, s2) ∧
      findId s2.events i1 = some sl1 ∧ findId s2.events i2 = some sl2 := by
  have hcreate := @createSwapRequest_ok_intro sl1.userId i1 i2 nid s sl1 sl2
    h1 h2 rfl hown hst1 hst2
  have hfind : findId (setId s.swapRequests nid
      { requesterId := sl1.userId, requesterSlotId := i1,
        targetUserId := sl2.userId, targetSlotId := i2,
        status := SwapRequestStatus.PENDING }) nid =
      some ({ requesterId := sl1.userId, requesterSlotId := i1,
              targetUserId := sl2.userId, targetSlotId := i2,
              status := SwapRequestStatus.PENDING } : SwapReq) := by
    rw [findId_setId, if_pos rfl]
  have hreject := @rejectSwapRequest_ok_intro nid sl2.userId
    { s with
        events := setId (setId s.events i1
            { sl1 with status := .SWAP_PENDING, swapRequestId := some nid }) i2
            { sl2 with status := .SWAP_PENDING, swapRequestId := some nid }
        swapRequests := setId s.swapRequests nid
          { requesterId := sl1.userId, requesterSlotId := i1,
            targetUserId := sl2.userId, targetSlotId := i2,
            status := SwapRequestStatus.PENDING } }
    { requesterId := sl1.userId, requesterSlotId := i1,
      targetUserId := sl2.userId, targetSlotId := i2,
      status := SwapRequestStatus.PENDING }
    hfind rfl rfl
  have hev1 : findId (setId (setId s.events i1
      { sl1 with status := EventStatus.SWAP_PENDING, swapRequestId := some nid }) i2
      { sl2 with status := EventStatus.SWAP_PENDING, swapRequestId := some nid }) i1 =
      some { sl1 with status := EventStatus.SWAP_PENDING, swapRequestId := some nid } := by
    rw [findId_setId, if_neg (fun hh => hne hh.symm), findId_setId, if_pos rfl]
  have hev2 : findId (setId (setId s.events i1
      { sl1 with status := EventStatus.SWAP_PENDING, swapRequestId := some nid }) i2
      { sl2 with status := EventStatus.SWAP_PENDING, swapRequestId := some nid }) i2 =
      some { sl2 with status := EventStatus.SWAP_PENDING, swapRequestId := some nid } := by
    rw [findId_setId, if_pos rfl]
  refine ⟨_, _, hcreate, hreject, ?_, ?_⟩
  · show findId (unlockSlot (unlockSlot
        (setId (setId s.events i1
          { sl1 with status := EventStatus.SWAP_PENDING, swapRequestId := some nid }) i2
          { sl2 with status := EventStatus.SWAP_PENDING, swapRequestId := some nid })
        (findId (setId (setId s.events i1
          { sl1 with status := EventStatus.SWAP_PENDING, swapRequestId := some nid }) i2
          { sl2 with status := EventStatus.SWAP_PENDING, swapRequestId := some nid }) i1) i1)
        (findId (setId (setId s.events i1
          { sl1 with status := EventStatus.SWAP_PENDING, swapRequestId := some nid }) i2
          { sl2 with status := EventStatus.SWAP_PENDING, swapRequestId := some nid }) i2) i2)
        i1 = some sl1
    rw [hev1, hev2, findId_unlockSlot_ne (fun hh => hne hh.symm),
      findId_unlockSlot_self rfl, ← hst1, ← hlk1]
  · show findId (unlockSlot (unlockSlot
        (setId (setId s.events i1
          { sl1 with status := EventStatus.SWAP_PENDING, swapRequestId := some nid }) i2
          { sl2 with status := EventStatus.SWAP_PENDING, swapRequestId := some nid })
        (findId (setId (setId s.events i1
          { sl1 with status := EventStatus.SWAP_PENDING, swapRequestId := some nid }) i2
          { sl2 with status := EventStatus.SWAP_PENDING, swapRequestId := some nid }) i1) i1)
        (findId (setId (setId s.events i1
          { sl1 with status := EventStatus.SWAP_PENDING, swapRequestId := some nid }) i2
          { sl2 with status := EventStatus.SWAP_PENDING, swapRequestId := some nid }) i2) i2)
        i2 = some sl2
    rw [hev1, hev2, findId_unlockSlot_self rfl, ← hst2, ← hlk2]

theorem createRequest_then_reject_roundtrip_witness :
    ∃ s1 s2, createSwapRequest slotA.userId 10 11 5 baseState = (.ok 5, s1) ∧
      rejectSwapRequest 5 slotB.userId s1 = (.ok 5, s2) ∧
      findId s2.events 10 = some slotA ∧ findId s2.events 11 = some slotB :=
  @createRequest_then_reject_roundtrip baseState 10 11 5 slotA slotB
    rfl rfl (by decide) rfl rfl rfl rfl (by decide)

/-! ### C7 -/

/-- C7: after a successful `cancelSwapRequest` has deleted the request, a
second cancel call on the same id returns NotFound and leaves the entire
state — in particular every slot — unchanged. -/
theorem cancelSwapRequest_double_cancel
    {rid uid uid2 : Nat} {v : String} {s s' : State}
    (h : cancelSwapRequest rid uid s = (.ok v, s'))
    (hnd : (s.swapRequests.map Prod.fst).Nodup) :
    cancelSwapRequest rid uid2 s' =
      (.error (.notFound "Swap request not found"), s') := by
  obtain ⟨req, hreq, hauth, hpend, hv, hs'⟩ := cancelSwapRequest_ok h
  subst hs'
  apply cancelSwapRequest_notFound_intro
  show findId (removeId s.swapRequests rid) rid = none
  exact findId_removeId_self hnd

theorem cancelSwapRequest_double_cancel_witness :
    cancelSwapRequest 5 3 ((cancelSwapRequest 5 1 pendState).2) =
      (.error (.notFound "Swap request not found"),
        (cancelSwapRequest 5 1 pendState).2) :=
  @cancelSwapRequest_double_cancel 5 1 3 "Swap request cancelled successfully"
    pendState (cancelSwapRequest 5 1 pendState).2 (by rfl) (by decide)

/-! ### C9 -/

/-- C9: a probing `detectTransactionSupport` call whose connection does
not become ready within the bounded wait returns the conservative value
`false`; and after any first completed call, every subsequent call returns
the cached first result, leaves the cache unchanged, and does not issue
the topology probe again. -/
theorem detectTransactionSupport_conservative_and_cached :
    (∀ b : Bool, (detectTransactionSupport none ⟨false, b⟩).result = false) ∧
    (∀ env env' : ProbeEnv,
      detectTransactionSupport (detectTransactionSupport none env).cache env' =
        ⟨(detectTransactionSupport none env).result,
         (detectTransactionSupport none env).cache, false⟩) := by
  constructor
  · intro b
    rfl
  · intro env env'
    obtain ⟨c, p⟩ := env
    cases c <;> rfl

/-! ### C10 -/

/-- A state whose pending request 5 names target user 2, whose user
record no longer exists. -/
def missingUserState : State :=
  { events := [(10,
      { title := "S1", startTime := 0, endTime := 1, userId := 1,
        status := .SWAP_PENDING, swapRequestId := some 5 }), (11,
      { title := "S2", startTime := 2, endTime := 3, userId := 2,
        status := .SWAP_PENDING, swapRequestId := some 5 })],
    swapRequests := [(5,
      { requesterId := 1, requesterSlotId := 10, targetUserId := 2,
        targetSlotId := 11, status := .PENDING })],
    users := [1] }

/-- C10: when a stored (pending) swap request references a target user
whose record no longer exists, `acceptSwapRequest` dereferences the null
populated value and fails with a TypeError — an error outside the four
domain error categories — before any write occurs (the post-state is the
pre-state). -/
theorem acceptSwapRequest_missing_target_user_typeError
    {rid uid : Nat} {s : State} {req : SwapReq}
    (hreq : findId s.swapRequests rid = some req)
    (_hpend : req.status = .PENDING)
    (husr : req.targetUserId ∉ s.users) :
    acceptSwapRequest rid uid s =
      (.error (.typeError "Cannot read properties of null"), s) ∧
    (SwapError.typeError "Cannot read properties of null").isDomainError = false := by
  constructor
  · unfold acceptSwapRequest
    rw [hreq]
    dsimp only
    rw [if_pos husr]
  · rfl

theorem acceptSwapRequest_missing_target_user_typeError_witness :
    acceptSwapRequest 5 2 missingUserState =
      (.error (.typeError "Cannot read properties of null"), missingUserState) ∧
    (SwapError.typeError "Cannot read properties of null").isDomainError = false :=
  @acceptSwapRequest_missing_target_user_typeError 5 2 missingUserState
    { requesterId := 1, requesterSlotId := 10, targetUserId := 2,
      targetSlotId := 11, status := .PENDING }
    rfl rfl (by decide)
